import Mathlib

/-!
# HubRemote playback core: shallow embedding

This file embeds the playback-related code of the HubRemote repository
(a Tauri + React Jellyfin client) and proves properties about it.

Embedded sources:
* `src/pages/Player.tsx` — the local playback page: tick conversions,
  Jellyfin playback reporting (start / progress / stopped), the player
  initialization sequence, the 500 ms state-poll loop, the 10 s progress
  report loop, seek/volume controls, and the exit handler.
* `src/hooks/useGlobalShortcuts.ts` — global media-key dispatch.
* `src/services/player.ts` — `unwrapResult` / `unwrapVoid`, the bridge
  from Tauri `CommandResult` values to resolved/rejected promises.

Modelling conventions:
* JavaScript numbers are modelled as `ℚ` (positions, durations) or `ℤ`
  (tick counts, volumes); strings as `String`; `string | null` as
  `Option String`.
* JavaScript truthiness of a `string | null` value (`!x` tests) is
  `jsStrTruthy`: `null` and `""` are falsy.
* An async call's outcome is an explicit oracle argument of type
  `Except String α` (resolved value or rejection message); a `try/catch`
  that swallows the rejection is a `match` whose branches agree.
* Every externally visible call (engine command, network report) is
  recorded in an event trace of type `List Ev`.
* `crypto.randomUUID()` is modelled by a fresh-nonce counter: each draw
  yields the current counter value and increments it, so distinct draws
  are distinct values.
-/

namespace HubRemote

/-- JS truthiness of a `string | null` value: `null` and `""` are falsy. -/
def jsStrTruthy : Option String → Bool
  | none => false
  | some s => !s.isEmpty

/-- JS `a || b` on a `string | null` value `a` and a string default `b`. -/
def jsOrStr (a : Option String) (b : String) : String :=
  match a with
  | none => b
  | some s => if s.isEmpty then b else s

/-! ## Tick conversions (`Player.tsx` lines 20–21)

`function ticksToSeconds(t: number) { return t / 10000000 }`
`function secondsToTicks(s: number) { return Math.floor(s * 10000000) }`
-/

/-- Embeds `ticksToSeconds(t) = t / 10000000` (`Player.tsx:20`). -/
def ticksToSeconds (t : ℤ) : ℚ := (t : ℚ) / 10000000

/-- Embeds `secondsToTicks(s) = Math.floor(s * 10000000)` (`Player.tsx:21`). -/
def secondsToTicks (s : ℚ) : ℤ := ⌊s * 10000000⌋

/-- The conversion as the spec words it: `ticks = round(seconds * 10_000_000)`
(`Math.round` rounds half up, as does Mathlib's `round` on `ℚ`).
This definition follows the spec, for comparison with `secondsToTicks`,
which is translated from the source. -/
def secondsToTicksSpecRound (s : ℚ) : ℤ := round (s * 10000000)

/-! ## `CommandResult` unwrapping (`src/services/player.ts` lines 12–57) -/

/-- Embeds `CommandResult<T>` from `src/services/player.ts`:
`{ success: boolean, data: T | null, error: string | null }`. -/
structure CommandResult (α : Type) where
  success : Bool
  data : Option α
  error : Option String
deriving Repr, DecidableEq

/-- Embeds `unwrapResult` (`player.ts:43-49`): given the resolved `CommandResult`,
`if (!result.success || result.error) throw new Error(result.error || 'Unknown error')`,
else `return result.data as T`. -/
def unwrapResult {α : Type} (result : CommandResult α) : Except String (Option α) :=
  if !result.success || jsStrTruthy result.error then
    .error (jsOrStr result.error "Unknown error")
  else
    .ok result.data

/-- Embeds `unwrapVoid` (`player.ts:52-57`): same test, resolves with no value. -/
def unwrapVoid (result : CommandResult Unit) : Except String Unit :=
  if !result.success || jsStrTruthy result.error then
    .error (jsOrStr result.error "Unknown error")
  else
    .ok ()

end HubRemote

namespace HubRemote

/-! ## Event traces

Every engine command and every network report issued by the embedded code
is recorded as one event. Network report events carry the payload fields
the claims are about. -/

/-- One externally visible call made by the playback code. -/
inductive Ev where
  /-- `playerService.init()` -/
  | engineInit
  /-- `jellyfinApi.getItem(userId, itemId)` -/
  | apiGetItem (userId itemId : String)
  /-- `playerService.playVideoWithOptions({url, start_position, auth_token})` -/
  | engineLoad (url : String) (startPosition : ℚ) (hasAuthToken : Bool)
  /-- `playerService.getDuration()` -/
  | engineGetDuration
  /-- `playerService.getState()` -/
  | engineGetState
  /-- `playerService.stop()` -/
  | engineStop
  /-- `playerService.destroy()` -/
  | engineDestroy
  /-- `playerService.seek(position)` -/
  | engineSeek (position : ℚ)
  /-- `playerService.seekRelative(offset)` -/
  | engineSeekRelative (offset : ℚ)
  /-- `playerService.setVolume(volume)` -/
  | engineSetVolume (volume : ℤ)
  /-- `playerService.getVolume()` -/
  | engineGetVolume
  /-- `playerService.togglePlayback()` -/
  | engineTogglePlayback
  /-- `playerService.toggleMute()` -/
  | engineToggleMute
  /-- POST `/Sessions/Playing` with the recorded payload fields -/
  | netStart (playSessionId : ℕ) (positionTicks : ℤ) (isPaused : Bool) (volumeLevel : ℤ)
  /-- POST `/Sessions/Playing/Progress` with the recorded payload fields -/
  | netProgress (playSessionId : ℕ) (positionTicks : ℤ) (isPaused : Bool) (volumeLevel : ℤ)
  /-- POST `/Sessions/Playing/Stopped` with the recorded payload fields -/
  | netStopped (playSessionId : ℕ) (positionTicks : ℤ)
deriving Repr, DecidableEq

/-- Is this event one of the three network report calls? -/
def Ev.isNet : Ev → Bool
  | .netStart .. | .netProgress .. | .netStopped .. => true
  | _ => false

/-- Is this event a start report? -/
def Ev.isStart : Ev → Bool
  | .netStart .. => true
  | _ => false

/-- Is this event an engine call (anything but a network report)? -/
def Ev.isEngine (e : Ev) : Bool := !e.isNet

/-! ## Player page data (`src/pages/Player.tsx`) -/

/-- Configuration read from `useConfigStore` (`src/stores/configStore.ts`):
`serverUrl: string` (default `''`), `accessToken: string | null`,
`userId: string | null`. -/
structure Config where
  serverUrl : String
  accessToken : Option String
  userId : Option String
deriving Repr, DecidableEq

/-- Embeds `PlayerProps` (`Player.tsx:23`) plus `navState.params?.itemId`, the
fallback read in `effectiveItemId`. -/
structure PlayerProps where
  itemId : Option String
  /-- `navState.params?.itemId` (`Player.tsx:57`) -/
  navItemId : Option String
  mediaSourceId : Option String
  startPositionTicks : Option ℤ
deriving Repr, DecidableEq

/-- Embeds `effectiveItemId = itemId || navState.params?.itemId` (`Player.tsx:57`),
with JS `||` semantics on `string | undefined`. -/
def effectiveItemId (p : PlayerProps) : Option String :=
  if jsStrTruthy p.itemId then p.itemId else p.navItemId

/-- JS truthiness of a `number | undefined` value: `undefined` and `0` are falsy. -/
def jsIntOptTruthy : Option ℤ → Bool
  | none => false
  | some x => x != 0

/-- JS `a || b` where `a` is a possibly-undefined number (`0` is falsy). -/
def jsOrInt (a : Option ℤ) (b : ℤ) : ℤ :=
  match a with
  | none => b
  | some x => if x = 0 then b else x

/-- A `MediaStream` entry of the catalog item, with exactly the fields
`Player.tsx:244-250` reads (`Type`, `Index`, `DisplayTitle`, `Language`,
`IsDefault`; `Type` is renamed `streamType`, a Lean keyword). -/
structure MediaStream where
  streamType : Option String
  index : Option ℤ
  displayTitle : Option String
  language : Option String
  isDefault : Option Bool
deriving Repr, DecidableEq

/-- A `MediaSource` of the item (`MediaStreams` field only). -/
structure MediaSource where
  mediaStreams : Option (List MediaStream)
deriving Repr, DecidableEq

/-- The catalog item returned by `jellyfinApi.getItem` (`MediaSources` only,
which is all `initPlayer` consumes of it). -/
structure ItemData where
  mediaSources : Option (List MediaSource)
deriving Repr, DecidableEq

/-- Embeds `TrackInfo` (`Player.tsx:24`). -/
structure TrackInfo where
  index : ℤ
  label : String
  language : Option String
  isDefault : Bool
deriving Repr, DecidableEq

/-- The `Player` component state the embedded operations read or write:
the `useState` fields of `Player.tsx:29-43` that playback logic touches,
the `playSessionIdRef` ref, and the fresh-nonce counter standing in for
`crypto.randomUUID()`. Pure presentation state (menu visibility, controls
overlay, seek-drag state, speed, fullscreen, mute flag) is omitted: no
embedded operation reads it. -/
structure PlayerUIState where
  isPlaying : Bool
  isPaused : Bool
  position : ℚ
  duration : ℚ
  volume : ℤ
  isLoading : Bool
  error : Option String
  item : Option ItemData
  audioTracks : List TrackInfo
  subtitleTracks : List TrackInfo
  currentAudioTrack : ℤ
  currentSubtitleTrack : ℤ
  /-- `playSessionIdRef.current` (`Player.tsx:55`) -/
  playSessionId : Option ℕ
  /-- fresh-nonce counter modelling `crypto.randomUUID()` -/
  nextUUID : ℕ
deriving Repr, DecidableEq

/-- The initial component state (`useState` initializers, `Player.tsx:29-55`),
with the nonce counter seeded by `uuidSeed`. -/
def initialState (uuidSeed : ℕ) : PlayerUIState :=
  { isPlaying := false, isPaused := true, position := 0, duration := 0,
    volume := 100, isLoading := true, error := none, item := none,
    audioTracks := [], subtitleTracks := [], currentAudioTrack := 0,
    currentSubtitleTrack := -1, playSessionId := none, nextUUID := uuidSeed }

/-! ## Playback reporting (`Player.tsx:60-92`) -/

/-- Embeds `reportPlaybackStart` (`Player.tsx:60-70`). Guard: return if
`!effectiveItemId || !serverUrl || !accessToken`. Otherwise draw a fresh
`playSessionId`, then POST `/Sessions/Playing` with
`PositionTicks: startPositionTicks || 0`, `IsPaused: false`,
`VolumeLevel: volume`; a rejected fetch is caught and only logged. -/
def reportPlaybackStart (cfg : Config) (p : PlayerProps) (fetchRes : Except String Unit)
    (st : PlayerUIState) : PlayerUIState × List Ev :=
  if !(jsStrTruthy (effectiveItemId p)) || cfg.serverUrl.isEmpty
      || !(jsStrTruthy cfg.accessToken) then
    (st, [])
  else
    let sid := st.nextUUID
    let st := { st with playSessionId := some sid, nextUUID := st.nextUUID + 1 }
    let ev := Ev.netStart sid (p.startPositionTicks.getD 0) false st.volume
    match fetchRes with
    | .ok _ => (st, [ev])
    | .error _ => (st, [ev])

/-- Embeds `reportPlaybackProgress` (`Player.tsx:72-81`). Guard additionally
requires `playSessionIdRef.current` to be set. Payload:
`PositionTicks: secondsToTicks(position)`, `IsPaused: isPaused`,
`VolumeLevel: volume`; a rejected fetch is caught and only logged. -/
def reportPlaybackProgress (cfg : Config) (p : PlayerProps) (fetchRes : Except String Unit)
    (st : PlayerUIState) : PlayerUIState × List Ev :=
  if !(jsStrTruthy (effectiveItemId p)) || cfg.serverUrl.isEmpty
      || !(jsStrTruthy cfg.accessToken) || !st.playSessionId.isSome then
    (st, [])
  else
    let ev := Ev.netProgress (st.playSessionId.getD 0) (secondsToTicks st.position)
      st.isPaused st.volume
    match fetchRes with
    | .ok _ => (st, [ev])
    | .error _ => (st, [ev])

/-- Embeds `reportPlaybackStopped` (`Player.tsx:83-92`). Same guard as progress;
payload carries `PositionTicks: secondsToTicks(position)` (no pause or
volume fields); a rejected fetch is caught and only logged. -/
def reportPlaybackStopped (cfg : Config) (p : PlayerProps) (fetchRes : Except String Unit)
    (st : PlayerUIState) : PlayerUIState × List Ev :=
  if !(jsStrTruthy (effectiveItemId p)) || cfg.serverUrl.isEmpty
      || !(jsStrTruthy cfg.accessToken) || !st.playSessionId.isSome then
    (st, [])
  else
    let ev := Ev.netStopped (st.playSessionId.getD 0) (secondsToTicks st.position)
    match fetchRes with
    | .ok _ => (st, [ev])
    | .error _ => (st, [ev])

/-! ## Player initialization (`Player.tsx:224-280`) -/

/-- One `streams.forEach` step of `Player.tsx:244-251`: append an audio or
subtitle `TrackInfo` depending on the stream's `Type`, with
`index: s.Index ?? i`, `label: s.DisplayTitle || s.Language || default`,
`isDefault: s.IsDefault || false`. -/
def trackStep (acc : List TrackInfo × List TrackInfo) (si : ℕ × MediaStream) :
    List TrackInfo × List TrackInfo :=
  let (audio, subs) := acc
  let (i, s) := si
  let audio := if s.streamType = some "Audio" then
      audio ++ [{ index := s.index.getD (i : ℤ),
                  label := jsOrStr s.displayTitle
                    (jsOrStr s.language ("Audio " ++ toString (audio.length + 1))),
                  language := s.language,
                  isDefault := s.isDefault.getD false }]
    else audio
  let subs := if s.streamType = some "Subtitle" then
      subs ++ [{ index := s.index.getD (i : ℤ),
                 label := jsOrStr s.displayTitle
                   (jsOrStr s.language ("Subtitle " ++ toString (subs.length + 1))),
                 language := s.language,
                 isDefault := s.isDefault.getD false }]
    else subs
  (audio, subs)

/-- The audio and subtitle track lists built by the `forEach` loop. -/
def buildTracks (streams : List MediaStream) : List TrackInfo × List TrackInfo :=
  streams.enum.foldl trackStep ([], [])

/-- Embeds `if (audio.length > 0) setCurrentAudioTrack(audio.find(t => t.isDefault)?.index || audio[0].index)`
(`Player.tsx:254`), with JS `||` treating index `0` as falsy; unchanged when
the audio list is empty. -/
def pickAudioTrack (audio : List TrackInfo) (current : ℤ) : ℤ :=
  match audio with
  | [] => current
  | a :: _ => jsOrInt ((audio.find? (·.isDefault)).map (·.index)) a.index

/-- Embeds `if (subs.length > 0) { const def = subs.find(...); if (def) ... }`
(`Player.tsx:255-258`): the default subtitle track's index when one
exists, else unchanged. -/
def pickSubtitleTrack (subs : List TrackInfo) (current : ℤ) : ℤ :=
  match subs with
  | [] => current
  | _ :: _ =>
    match subs.find? (·.isDefault) with
    | some d => d.index
    | none => current

/-- Embeds `Player.tsx:240-258`: store the item, build the track lists from
`itemData.MediaSources?.[0]?.MediaStreams || []`, then pick the current
audio and subtitle track indices. -/
def applyTracks (itemData : ItemData) (st : PlayerUIState) : PlayerUIState :=
  let streams := ((itemData.mediaSources.bind List.head?).bind
    MediaSource.mediaStreams).getD []
  let audio := (buildTracks streams).1
  let subs := (buildTracks streams).2
  { st with item := some itemData, audioTracks := audio, subtitleTracks := subs,
            currentAudioTrack := pickAudioTrack audio st.currentAudioTrack,
            currentSubtitleTrack := pickSubtitleTrack subs st.currentSubtitleTrack }

/-- The stream URL of `Player.tsx:259`:
`` `${serverUrl}/Videos/${effectiveItemId}/stream?Static=true&mediaSourceId=${mediaSourceId || effectiveItemId}&api_key=${accessToken}` ``
(a `null` access token interpolates as the string `"null"`). -/
def streamUrl (cfg : Config) (p : PlayerProps) (itemId : String) : String :=
  cfg.serverUrl ++ "/Videos/" ++ itemId ++ "/stream?Static=true&mediaSourceId=" ++
    jsOrStr p.mediaSourceId itemId ++ "&api_key=" ++
    (match cfg.accessToken with | some s => s | none => "null")

/-- Embeds `(e as Error).message || 'Failed to initialize player'` (`Player.tsx:273`). -/
def initErrMsg (e : String) : String :=
  if e.isEmpty then "Failed to initialize player" else e

/-- The `catch` branch of `init` (`Player.tsx:271-276`) with the
cancellation flag false (a single uninterrupted mount): set the error
message and clear the loading flag. -/
def initCatch (e : String) (st : PlayerUIState) : PlayerUIState :=
  { st with error := some (initErrMsg e), isLoading := false }

/-- Outcomes of the async calls `init` awaits, in program order:
`playerService.init()`, `jellyfinApi.getItem`, `playerService.playVideoWithOptions`,
`playerService.getDuration()`, and the `reportPlaybackStart` fetch. -/
structure InitOracle where
  initRes : Except String Unit
  getItemRes : Except String ItemData
  loadRes : Except String Unit
  durationRes : Except String ℚ
  startFetchRes : Except String Unit
deriving Repr

/-- The `init` procedure of the mount effect (`Player.tsx:231-278`),
with the effect's `cancelled` flag false throughout (single uninterrupted
mount). Each awaited call appends its event; a rejection anywhere in the
`try` block jumps to `initCatch`. On full success the state flips to
playing and `reportPlaybackStart` runs last. -/
def initPlayer (cfg : Config) (p : PlayerProps) (o : InitOracle) (st : PlayerUIState) :
    PlayerUIState × List Ev :=
  if !(jsStrTruthy (effectiveItemId p)) then
    ({ st with error := some "No item ID provided", isLoading := false }, [])
  else
    let itemId := (effectiveItemId p).getD ""
    let st := { st with isLoading := true, error := none }
    match o.initRes with
    | .error e => (initCatch e st, [Ev.engineInit])
    | .ok _ =>
      if !(jsStrTruthy cfg.userId) then
        (initCatch "User not logged in" st, [Ev.engineInit])
      else
        let userId := cfg.userId.getD ""
        match o.getItemRes with
        | .error e => (initCatch e st, [Ev.engineInit, Ev.apiGetItem userId itemId])
        | .ok itemData =>
          let st := applyTracks itemData st
          let startPos := if jsIntOptTruthy p.startPositionTicks then
              ticksToSeconds (p.startPositionTicks.getD 0) else 0
          let evs := [Ev.engineInit, Ev.apiGetItem userId itemId,
            Ev.engineLoad (streamUrl cfg p itemId) startPos (jsStrTruthy cfg.accessToken)]
          match o.loadRes with
          | .error e => (initCatch e st, evs)
          | .ok _ =>
            let evs := evs ++ [Ev.engineGetDuration]
            match o.durationRes with
            | .error e => (initCatch e st, evs)
            | .ok dur =>
              let st := { st with duration := dur, isPlaying := true, isPaused := false, isLoading := false }
              let (st, revs) := reportPlaybackStart cfg p o.startFetchRes st
              (st, evs ++ revs)

/-! ## The two periodic loops (`Player.tsx:283-301`) -/

/-- The engine state returned by `get_playback_state`
(`PlaybackState` in `src/services/player.ts:19-28`). -/
structure EngineState where
  position : ℚ
  duration : ℚ
  is_playing : Bool
  is_paused : Bool
  volume : ℤ
  is_muted : Bool
  filename : Option String
  media_title : Option String
deriving Repr, DecidableEq

/-- One body of the 500 ms state-poll interval (`Player.tsx:285-292`):
on a resolved `getState`, copy `position` and `is_paused` and, when the
reported duration is positive, `duration`; a rejection is swallowed by the
empty `catch {}`. -/
def pollBody (res : Except String EngineState) (st : PlayerUIState) :
    PlayerUIState × List Ev :=
  match res with
  | .ok s =>
    ({ st with position := s.position, isPaused := s.is_paused,
               duration := if 0 < s.duration then s.duration else st.duration },
     [Ev.engineGetState])
  | .error _ => (st, [Ev.engineGetState])

/-- A poll tick: the poll effect (`Player.tsx:283-294`) schedules its
interval only while `isPlaying`, so a tick is a no-op otherwise. -/
def pollTick (res : Except String EngineState) (st : PlayerUIState) :
    PlayerUIState × List Ev :=
  if st.isPlaying then pollBody res st else (st, [])

/-- A progress-report tick: the progress effect (`Player.tsx:297-301`)
schedules `reportPlaybackProgress` every 10 s only while `isPlaying`. -/
def progressTick (cfg : Config) (p : PlayerProps) (fetchRes : Except String Unit)
    (st : PlayerUIState) : PlayerUIState × List Ev :=
  if st.isPlaying then reportPlaybackProgress cfg p fetchRes st else (st, [])

/-! ## Exit and seeks (`Player.tsx:120-132, 192-197`) -/

/-- Outcomes of the async calls `handleExit` awaits: the stopped-report
fetch, `playerService.stop()`, `playerService.destroy()`. -/
structure ExitOracle where
  stopFetchRes : Except String Unit
  stopRes : Except String Unit
  destroyRes : Except String Unit
deriving Repr

/-- Embeds `handleExit` (`Player.tsx:192-197`): await `reportPlaybackStopped`,
then `playerService.stop()` and `playerService.destroy()`, each wrapped in
`try {...} catch {}`, then `goBack()`. -/
def handleExit (cfg : Config) (p : PlayerProps) (x : ExitOracle)
    (st : PlayerUIState) : PlayerUIState × List Ev :=
  let (st, evs) := reportPlaybackStopped cfg p x.stopFetchRes st
  let evStop := match x.stopRes with
    | .ok _ => Ev.engineStop
    | .error _ => Ev.engineStop
  let evDestroy := match x.destroyRes with
    | .ok _ => Ev.engineDestroy
    | .error _ => Ev.engineDestroy
  (st, evs ++ [evStop, evDestroy])

/-- Embeds `seekRelative` (`Player.tsx:120-125`): await the engine seek, then set
`position` to `Math.max(0, Math.min(duration, p + delta))`; a rejection is
caught and logged, leaving the position unchanged. -/
def seekRelative (delta : ℚ) (res : Except String Unit) (st : PlayerUIState) :
    PlayerUIState × List Ev :=
  match res with
  | .ok _ =>
    ({ st with position := max 0 (min st.duration (st.position + delta)) },
     [Ev.engineSeekRelative delta])
  | .error _ => (st, [Ev.engineSeekRelative delta])

/-- Embeds `seekTo` (`Player.tsx:127-132`): await the engine seek, then set
`position` to the requested value as-is; a rejection is caught and logged. -/
def seekTo (pos : ℚ) (res : Except String Unit) (st : PlayerUIState) :
    PlayerUIState × List Ev :=
  match res with
  | .ok _ => ({ st with position := pos }, [Ev.engineSeek pos])
  | .error _ => (st, [Ev.engineSeek pos])

/-! ## A session run: init, interleaved loop ticks, exit -/

/-- One scheduled tick of either periodic loop, carrying the outcome of
the async call that tick makes. -/
inductive Tick where
  | poll (res : Except String EngineState)
  | progress (fetchRes : Except String Unit)

/-- Run one tick. -/
def runTick (cfg : Config) (p : PlayerProps) : Tick → PlayerUIState → PlayerUIState × List Ev
  | .poll res, st => pollTick res st
  | .progress r, st => progressTick cfg p r st

/-- Run a list of ticks in order, threading state and appending traces. -/
def runTicks (cfg : Config) (p : PlayerProps) :
    List Tick → PlayerUIState → PlayerUIState × List Ev
  | [], st => (st, [])
  | t :: ts, st =>
    let r1 := runTick cfg p t st
    let r2 := runTicks cfg p ts r1.1
    (r2.1, r1.2 ++ r2.2)

/-- A whole session lifetime: mount-effect `init`, then any interleaving of
poll and progress ticks, then `handleExit`. -/
def runSession (cfg : Config) (p : PlayerProps) (o : InitOracle) (ts : List Tick)
    (x : ExitOracle) (st : PlayerUIState) : PlayerUIState × List Ev :=
  let r1 := initPlayer cfg p o st
  let r2 := runTicks cfg p ts r1.1
  let r3 := handleExit cfg p x r2.1
  (r3.1, r1.2 ++ r2.2 ++ r3.2)

/-! ## Render branches (`Player.tsx:334-405`) -/

/-- Which screen the component renders. -/
inductive Screen where
  | errorScreen (message : String)
  | loadingScreen
  | playerScreen
deriving Repr, DecidableEq

/-- Interactive affordances a screen offers. -/
inductive UIAction where
  | goBack
  | exitPlayback
  | togglePlayPause
  | seekBar
  | speedMenu
  | subtitleMenu
  | audioMenu
  | muteButton
  | volumeSlider
  | fullscreenButton
deriving Repr, DecidableEq

/-- The early-return render branches (`Player.tsx:334-351`): `if (error)`
(JS truthiness, so a null or empty message falls through) renders the
error screen, else `if (isLoading)` renders the spinner, else the player
chrome. -/
def render (st : PlayerUIState) : Screen :=
  if jsStrTruthy st.error then Screen.errorScreen (st.error.getD "")
  else if st.isLoading then Screen.loadingScreen else Screen.playerScreen

/-- The interactive controls of each screen: the error screen offers only
the `Go Back` button wired to `goBack` (`Player.tsx:339`); the loading
spinner offers nothing; the player screen offers the full control bar. -/
def screenActions : Screen → List UIAction
  | .errorScreen _ => [.goBack]
  | .loadingScreen => []
  | .playerScreen =>
    [.exitPlayback, .togglePlayPause, .seekBar, .speedMenu, .subtitleMenu,
     .audioMenu, .muteButton, .volumeSlider, .fullscreenButton]

/-! ## Global shortcut dispatch (`src/hooks/useGlobalShortcuts.ts`) -/

/-- A `ShortcutEvent`'s action: one of the seven literal command strings,
or the `{ custom: string }` escape hatch. -/
inductive ShortcutAction where
  | playPause
  | nextTrack
  | previousTrack
  | stop
  | volumeUp
  | volumeDown
  | mute
  | custom (name : String)
deriving Repr, DecidableEq

/-- Embeds `typeof event.action === 'string' ? event.action : event.action.custom`
(`useGlobalShortcuts.ts:20`). -/
def actionName : ShortcutAction → String
  | .playPause => "playPause"
  | .nextTrack => "nextTrack"
  | .previousTrack => "previousTrack"
  | .stop => "stop"
  | .volumeUp => "volumeUp"
  | .volumeDown => "volumeDown"
  | .mute => "mute"
  | .custom s => s

/-- Outcomes of the player-service calls the dispatcher can await. -/
structure ShortcutOracle where
  togglePlaybackRes : Except String Bool
  stopRes : Except String Unit
  getVolumeRes : Except String ℤ
  setVolumeRes : Except String Unit
  toggleMuteRes : Except String Bool
deriving Repr

/-- The `try { switch ... }` body of `handleShortcut`
(`useGlobalShortcuts.ts:22-47`): the engine calls made (in order) and
whether the body completed or threw. `volumeUp` reads the volume and sets
`Math.min(100, v + 5)`; `volumeDown` sets `Math.max(0, v - 5)`;
`nextTrack`/`previousTrack` are TODO stubs; an unmatched action string
falls through the switch. -/
def handleShortcutBody (a : ShortcutAction) (o : ShortcutOracle) :
    List Ev × Except String Unit :=
  let act := actionName a
  if act = "playPause" then
    ([Ev.engineTogglePlayback],
     match o.togglePlaybackRes with | .ok _ => .ok () | .error e => .error e)
  else if act = "nextTrack" then ([], .ok ())
  else if act = "previousTrack" then ([], .ok ())
  else if act = "stop" then
    ([Ev.engineStop],
     match o.stopRes with | .ok _ => .ok () | .error e => .error e)
  else if act = "volumeUp" then
    match o.getVolumeRes with
    | .error e => ([Ev.engineGetVolume], .error e)
    | .ok v =>
      ([Ev.engineGetVolume, Ev.engineSetVolume (min 100 (v + 5))],
       match o.setVolumeRes with | .ok _ => .ok () | .error e => .error e)
  else if act = "volumeDown" then
    match o.getVolumeRes with
    | .error e => ([Ev.engineGetVolume], .error e)
    | .ok v =>
      ([Ev.engineGetVolume, Ev.engineSetVolume (max 0 (v - 5))],
       match o.setVolumeRes with | .ok _ => .ok () | .error e => .error e)
  else if act = "mute" then
    ([Ev.engineToggleMute],
     match o.toggleMuteRes with | .ok _ => .ok () | .error e => .error e)
  else ([], .ok ())

/-! ## Trace analysis helpers -/

/-- The playSessionIds carried by the start reports of a trace. -/
def startSids (tr : List Ev) : List ℕ :=
  tr.filterMap fun e => match e with
    | .netStart s _ _ _ => some s
    | _ => none

/-- Checks the tail of a session's report sequence: zero or more progress
reports carrying `sid`, then at most one stopped report carrying `sid`. -/
def progressThenStop (sid : ℕ) : List Ev → Bool
  | [] => true
  | [Ev.netStopped s _] => s == sid
  | Ev.netProgress s _ _ _ :: rest => s == sid && progressThenStop sid rest
  | _ => false

/-- Checks a session's report sequence: empty, or exactly one start report
followed by progress reports and at most one stopped report, all carrying
the start report's playSessionId. -/
def reportsWellFormed : List Ev → Bool
  | [] => true
  | Ev.netStart sid _ _ _ :: rest => progressThenStop sid rest
  | _ => false

/-- Embeds `handleShortcut` (`useGlobalShortcuts.ts:13-53`). The guard
`if (!localPlayback && event.action !== 'playPause') return` compares the
raw action to the string literal, so a `custom` object never equals it.
The `try/catch` logs any rejection and returns normally, so the result is
always `.ok` with the engine calls that were made. -/
def handleShortcut (localPlayback : Bool) (a : ShortcutAction) (o : ShortcutOracle) :
    Except String (List Ev) :=
  if localPlayback = false ∧ a ≠ ShortcutAction.playPause then .ok []
  else
    match handleShortcutBody a o with
    | (evs, .ok _) => .ok evs
    | (evs, .error _) => .ok evs

/-- Normalize a tick's report-fetch outcome to success (poll results are
kept). -/
def Tick.stripFetch : Tick → Tick
  | .poll r => .poll r
  | .progress _ => .progress (Except.ok ())

/-! ## Sample inputs used as concrete evaluation points -/

/-- A shortcut oracle whose engine reports volume 98. -/
def volOracle98 : ShortcutOracle :=
  ⟨Except.ok true, Except.ok (), Except.ok 98, Except.ok (), Except.ok true⟩

/-- A shortcut oracle with every call succeeding. -/
def shortcutOracleOk : ShortcutOracle :=
  ⟨Except.ok true, Except.ok (), Except.ok 0, Except.ok (), Except.ok true⟩

/-- A sample configuration with all credentials present. -/
def sampleConfig : Config := ⟨"s", some "t", some "u"⟩

/-- Sample props: item `"i"` with a 60-second start position. -/
def sampleProps : PlayerProps := ⟨some "i", none, none, some 600000000⟩

/-- A sample catalog item with no media sources listed. -/
def sampleItem : ItemData := ⟨none⟩

/-- An oracle where every init-sequence call succeeds. -/
def sampleInitOracle : InitOracle :=
  ⟨Except.ok (), Except.ok sampleItem, Except.ok (), Except.ok 100, Except.ok ()⟩

/-- An oracle where the engine load rejects with `"unsupported codec"`. -/
def failLoadOracle : InitOracle :=
  ⟨Except.ok (), Except.ok sampleItem, Except.error "unsupported codec",
   Except.ok 100, Except.ok ()⟩

/-- An oracle where the engine init call rejects with `"mpv not found"`. -/
def failInitOracle : InitOracle :=
  ⟨Except.error "mpv not found", Except.ok sampleItem, Except.ok (),
   Except.ok 100, Except.ok ()⟩

/-- A sample exit oracle with every call succeeding. -/
def sampleExit : ExitOracle := ⟨Except.ok (), Except.ok (), Except.ok ()⟩

/-! ## Session-level lemmas -/

/-- The update `applyTracks` only touches the item and track fields. -/
@[simp] lemma applyTracks_playSessionId (d : ItemData) (st : PlayerUIState) :
    (applyTracks d st).playSessionId = st.playSessionId := rfl

@[simp] lemma applyTracks_nextUUID (d : ItemData) (st : PlayerUIState) :
    (applyTracks d st).nextUUID = st.nextUUID := rfl

@[simp] lemma applyTracks_volume (d : ItemData) (st : PlayerUIState) :
    (applyTracks d st).volume = st.volume := rfl

@[simp] lemma applyTracks_isPlaying (d : ItemData) (st : PlayerUIState) :
    (applyTracks d st).isPlaying = st.isPlaying := rfl

@[simp] lemma applyTracks_error (d : ItemData) (st : PlayerUIState) :
    (applyTracks d st).error = st.error := rfl

@[simp] lemma applyTracks_isLoading (d : ItemData) (st : PlayerUIState) :
    (applyTracks d st).isLoading = st.isLoading := rfl

@[simp] lemma applyTracks_position (d : ItemData) (st : PlayerUIState) :
    (applyTracks d st).position = st.position := rfl

@[simp] lemma applyTracks_isPaused (d : ItemData) (st : PlayerUIState) :
    (applyTracks d st).isPaused = st.isPaused := rfl

@[simp] lemma applyTracks_duration (d : ItemData) (st : PlayerUIState) :
    (applyTracks d st).duration = st.duration := rfl

/-- Ticks are no-ops before `isPlaying` is set: neither loop's interval is
scheduled (`Player.tsx:284, 298`). -/
lemma runTicks_not_playing (cfg : Config) (p : PlayerProps) (ts : List Tick)
    (st : PlayerUIState) (h : st.isPlaying = false) :
    runTicks cfg p ts st = (st, []) := by
  induction ts with
  | nil => rfl
  | cons t ts ih =>
    have hone : runTick cfg p t st = (st, []) := by
      cases t with
      | poll res => simp [runTick, pollTick, h]
      | progress f => simp [runTick, progressTick, h]
    simp [runTicks, hone, ih]

/-- A rejected reporter fetch is caught inside the reporter: its outcome
never influences the state or the trace. -/
lemma reportPlaybackStart_fetch (cfg : Config) (p : PlayerProps)
    (f : Except String Unit) (st : PlayerUIState) :
    reportPlaybackStart cfg p f st = reportPlaybackStart cfg p (Except.ok ()) st := by
  cases f <;> rfl

lemma reportPlaybackProgress_fetch (cfg : Config) (p : PlayerProps)
    (f : Except String Unit) (st : PlayerUIState) :
    reportPlaybackProgress cfg p f st = reportPlaybackProgress cfg p (Except.ok ()) st := by
  cases f <;> rfl

lemma reportPlaybackStopped_fetch (cfg : Config) (p : PlayerProps)
    (f : Except String Unit) (st : PlayerUIState) :
    reportPlaybackStopped cfg p f st = reportPlaybackStopped cfg p (Except.ok ()) st := by
  cases f <;> rfl

lemma initPlayer_fetch (cfg : Config) (p : PlayerProps) (o : InitOracle)
    (st : PlayerUIState) :
    initPlayer cfg p o st =
      initPlayer cfg p { o with startFetchRes := Except.ok () } st := by
  obtain ⟨i, g, l, d, f⟩ := o
  simp only [initPlayer, reportPlaybackStart_fetch]

lemma runTick_fetch (cfg : Config) (p : PlayerProps) (t : Tick) (st : PlayerUIState) :
    runTick cfg p t st = runTick cfg p t.stripFetch st := by
  cases t with
  | poll res => rfl
  | progress f =>
    simp only [runTick, Tick.stripFetch, progressTick, reportPlaybackProgress_fetch]

lemma runTicks_fetch (cfg : Config) (p : PlayerProps) (ts : List Tick)
    (st : PlayerUIState) :
    runTicks cfg p ts st = runTicks cfg p (ts.map Tick.stripFetch) st := by
  induction ts generalizing st with
  | nil => rfl
  | cons t ts ih =>
    simp only [runTicks, List.map_cons, ← runTick_fetch, ih]

lemma handleExit_fetch (cfg : Config) (p : PlayerProps) (x : ExitOracle)
    (st : PlayerUIState) :
    handleExit cfg p x st =
      handleExit cfg p { x with stopFetchRes := Except.ok () } st := by
  obtain ⟨sf, sr, dr⟩ := x
  simp only [handleExit, reportPlaybackStopped_fetch]

/-- One loop tick preserves `playSessionId` and the nonce counter, and
emits only a `getState` call or a progress report carrying the current
`playSessionId` (never a start or stopped report, never a teardown call). -/
lemma runTick_shape (cfg : Config) (p : PlayerProps) (t : Tick) (st : PlayerUIState) :
    (runTick cfg p t st).1.playSessionId = st.playSessionId ∧
    (runTick cfg p t st).1.nextUUID = st.nextUUID ∧
    ∀ e ∈ (runTick cfg p t st).2, e = Ev.engineGetState ∨
      (st.playSessionId.isSome = true ∧
        ∃ t2 pz v, e = Ev.netProgress (st.playSessionId.getD 0) t2 pz v) := by
  cases t with
  | poll res =>
    cases hp : st.isPlaying <;> cases res <;>
      simp [runTick, pollTick, pollBody, hp]
  | progress f =>
    cases hp : st.isPlaying
    · simp [runTick, progressTick, hp]
    · simp only [runTick, progressTick, hp, if_true]
      unfold reportPlaybackProgress
      split
      · simp
      · rename_i hguard
        have hs : st.playSessionId.isSome = true := by
          cases hs : st.playSessionId.isSome
          · exact absurd (by simp [hs]) hguard
          · rfl
        cases f <;>
          exact ⟨rfl, rfl, fun e he =>
            Or.inr ⟨hs, secondsToTicks st.position, st.isPaused, st.volume,
              List.mem_singleton.mp he⟩⟩

/-- Loop ticks preserve `playSessionId` and the nonce counter, and emit
only `getState` calls and progress reports with the current session id. -/
lemma runTicks_shape (cfg : Config) (p : PlayerProps) (ts : List Tick)
    (st : PlayerUIState) :
    (runTicks cfg p ts st).1.playSessionId = st.playSessionId ∧
    (runTicks cfg p ts st).1.nextUUID = st.nextUUID ∧
    ∀ e ∈ (runTicks cfg p ts st).2, e = Ev.engineGetState ∨
      (st.playSessionId.isSome = true ∧
        ∃ t2 pz v, e = Ev.netProgress (st.playSessionId.getD 0) t2 pz v) := by
  induction ts generalizing st with
  | nil => simp [runTicks]
  | cons t ts ih =>
    obtain ⟨h1, h2, h3⟩ := runTick_shape cfg p t st
    obtain ⟨ih1, ih2, ih3⟩ := ih ((runTick cfg p t st).1)
    refine ⟨?_, ?_, ?_⟩
    · simp only [runTicks]
      rw [ih1, h1]
    · simp only [runTicks]
      rw [ih2, h2]
    · intro e he
      simp only [runTicks, List.mem_append] at he
      cases he with
      | inl h => exact h3 e h
      | inr h =>
        have := ih3 e h
        rw [h1] at this
        exact this

/-- No tick ever emits a start report. -/
lemma runTicks_no_start (cfg : Config) (p : PlayerProps) (ts : List Tick)
    (st : PlayerUIState) :
    (runTicks cfg p ts st).2.countP Ev.isStart = 0 := by
  rw [List.countP_eq_zero]
  intro e he
  rcases (runTicks_shape cfg p ts st).2.2 e he with h | ⟨_, t2, pz, v, h⟩ <;>
    subst h <;> simp [Ev.isStart]

/-- The exit path `handleExit` does not change the component state, and its trace is the
engine teardown pair, optionally preceded by one stopped report carrying
the current `playSessionId`. -/
lemma handleExit_shape (cfg : Config) (p : PlayerProps) (x : ExitOracle)
    (st : PlayerUIState) :
    (handleExit cfg p x st).1 = st ∧
    ((handleExit cfg p x st).2 = [Ev.engineStop, Ev.engineDestroy] ∨
     (st.playSessionId.isSome = true ∧
      (handleExit cfg p x st).2 =
        [Ev.netStopped (st.playSessionId.getD 0) (secondsToTicks st.position),
         Ev.engineStop, Ev.engineDestroy])) := by
  obtain ⟨sf, sr, dr⟩ := x
  cases sf <;> cases sr <;> cases dr <;>
    (simp only [handleExit, reportPlaybackStopped]
     split
     · exact ⟨rfl, Or.inl rfl⟩
     · rename_i hguard
       refine ⟨rfl, Or.inr ⟨?_, rfl⟩⟩
       cases hs : st.playSessionId.isSome
       · exact absurd (by simp [hs]) hguard
       · rfl)

/-- The exit path `handleExit` never emits a start report. -/
lemma handleExit_no_start (cfg : Config) (p : PlayerProps) (x : ExitOracle)
    (st : PlayerUIState) :
    (handleExit cfg p x st).2.countP Ev.isStart = 0 := by
  rcases (handleExit_shape cfg p x st).2 with h | ⟨_, h⟩ <;> rw [h] <;> rfl

/-- On the all-success path from the initial state, `initPlayer` emits
exactly the init/getItem/load/getDuration calls followed by one start
report whose payload is the requested start ticks, `IsPaused = false` and
the initial volume 100; the drawn `playSessionId` is the seed nonce. -/
lemma initPlayer_success_trace (cfg : Config) (p : PlayerProps) (o : InitOracle)
    (n : ℕ) (d : ItemData) (dur : ℚ)
    (hItem : jsStrTruthy (effectiveItemId p) = true)
    (hUrl : cfg.serverUrl.isEmpty = false)
    (hTok : jsStrTruthy cfg.accessToken = true)
    (hUser : jsStrTruthy cfg.userId = true)
    (hInit : o.initRes = Except.ok ())
    (hGet : o.getItemRes = Except.ok d)
    (hLoad : o.loadRes = Except.ok ())
    (hDur : o.durationRes = Except.ok dur) :
    (initPlayer cfg p o (initialState n)).2 =
      [Ev.engineInit,
       Ev.apiGetItem (cfg.userId.getD "") ((effectiveItemId p).getD ""),
       Ev.engineLoad (streamUrl cfg p ((effectiveItemId p).getD ""))
         (if jsIntOptTruthy p.startPositionTicks then
            ticksToSeconds (p.startPositionTicks.getD 0) else 0)
         (jsStrTruthy cfg.accessToken),
       Ev.engineGetDuration,
       Ev.netStart n (p.startPositionTicks.getD 0) false 100] ∧
    (initPlayer cfg p o (initialState n)).1.playSessionId = some n ∧
    (initPlayer cfg p o (initialState n)).1.nextUUID = n + 1 ∧
    (initPlayer cfg p o (initialState n)).1.isPlaying = true := by
  rw [initPlayer]
  simp only [hItem, hInit, hUser, hGet, hLoad, hDur, Bool.not_true,
    Bool.false_eq_true, if_false]
  rw [reportPlaybackStart]
  simp only [hItem, hUrl, hTok, Bool.not_true, Bool.or_self, Bool.or_false,
    Bool.false_eq_true, if_false]
  cases o.startFetchRes <;> simp [initialState]

/-- Running `initPlayer` from the initial state either fires no report at all —
leaving `playSessionId` unset and the nonce counter untouched — or draws
exactly the seed nonce as `playSessionId`, bumps the counter, and emits
exactly one start report carrying it. -/
lemma initPlayer_char (cfg : Config) (p : PlayerProps) (o : InitOracle) (n : ℕ) :
    ((initPlayer cfg p o (initialState n)).1.playSessionId = none ∧
     (initPlayer cfg p o (initialState n)).1.nextUUID = n ∧
     startSids (initPlayer cfg p o (initialState n)).2 = [] ∧
     (initPlayer cfg p o (initialState n)).2.filter Ev.isNet = []) ∨
    ((initPlayer cfg p o (initialState n)).1.playSessionId = some n ∧
     (initPlayer cfg p o (initialState n)).1.nextUUID = n + 1 ∧
     startSids (initPlayer cfg p o (initialState n)).2 = [n] ∧
     (initPlayer cfg p o (initialState n)).2.filter Ev.isNet =
       [Ev.netStart n (p.startPositionTicks.getD 0) false 100]) := by
  cases hItem : jsStrTruthy (effectiveItemId p) with
  | false =>
    left
    simp [initPlayer, hItem, initialState, startSids]
  | true =>
    cases hI : o.initRes with
    | error e =>
      left
      simp [initPlayer, hItem, hI, initCatch, initialState, startSids, Ev.isNet]
    | ok u =>
      cases hUser : jsStrTruthy cfg.userId with
      | false =>
        left
        simp [initPlayer, hItem, hI, hUser, initCatch, initialState, startSids, Ev.isNet]
      | true =>
        cases hG : o.getItemRes with
        | error e =>
          left
          simp [initPlayer, hItem, hI, hUser, hG, initCatch, initialState,
            startSids, Ev.isNet]
        | ok d =>
          cases hL : o.loadRes with
          | error e =>
            left
            simp [initPlayer, hItem, hI, hUser, hG, hL, initCatch, initialState,
              startSids, Ev.isNet]
          | ok u2 =>
            cases hD : o.durationRes with
            | error e =>
              left
              simp [initPlayer, hItem, hI, hUser, hG, hL, hD, initCatch,
                initialState, startSids, Ev.isNet]
            | ok dur =>
              cases hUrl : cfg.serverUrl.isEmpty with
              | true =>
                left
                simp [initPlayer, reportPlaybackStart, hItem, hI, hUser, hG, hL,
                  hD, hUrl, initialState, startSids, Ev.isNet]
              | false =>
                cases hTok : jsStrTruthy cfg.accessToken with
                | false =>
                  left
                  simp [initPlayer, reportPlaybackStart, hItem, hI, hUser, hG,
                    hL, hD, hUrl, hTok, initialState, startSids, Ev.isNet]
                | true =>
                  right
                  cases hF : o.startFetchRes <;>
                    simp [initPlayer, reportPlaybackStart, hItem, hI, hUser, hG,
                      hL, hD, hUrl, hTok, hF, initialState, startSids, Ev.isNet]

/-- The procedure `initPlayer` never emits a teardown call or a stopped report. -/
lemma initPlayer_no_teardown (cfg : Config) (p : PlayerProps) (o : InitOracle)
    (st : PlayerUIState) :
    ∀ e ∈ (initPlayer cfg p o st).2,
      e ≠ Ev.engineStop ∧ e ≠ Ev.engineDestroy ∧ ∀ s t2, e ≠ Ev.netStopped s t2 := by
  cases hItem : jsStrTruthy (effectiveItemId p) with
  | false => simp [initPlayer, hItem]
  | true =>
    cases hI : o.initRes with
    | error e => simp [initPlayer, hItem, hI]
    | ok u =>
      cases hUser : jsStrTruthy cfg.userId with
      | false => simp [initPlayer, hItem, hI, hUser]
      | true =>
        cases hG : o.getItemRes with
        | error e => simp [initPlayer, hItem, hI, hUser, hG]
        | ok d =>
          cases hL : o.loadRes with
          | error e => simp [initPlayer, hItem, hI, hUser, hG, hL]
          | ok u2 =>
            cases hD : o.durationRes with
            | error e => simp [initPlayer, hItem, hI, hUser, hG, hL, hD]
            | ok dur =>
              cases hUrl : cfg.serverUrl.isEmpty with
              | true =>
                simp [initPlayer, reportPlaybackStart, hItem, hI, hUser, hG, hL,
                  hD, hUrl]
              | false =>
                cases hTok : jsStrTruthy cfg.accessToken with
                | false =>
                  simp [initPlayer, reportPlaybackStart, hItem, hI, hUser, hG,
                    hL, hD, hUrl, hTok]
                | true =>
                  cases hF : o.startFetchRes <;>
                    simp [initPlayer, reportPlaybackStart, hItem, hI, hUser, hG,
                      hL, hD, hUrl, hTok, hF]

/-- A run of progress reports all carrying `sid` passes through the
report-sequence checker. -/
lemma progressThenStop_all_progress (sid : ℕ) (l m : List Ev)
    (h : ∀ e ∈ l, ∃ t2 pz v, e = Ev.netProgress sid t2 pz v) :
    progressThenStop sid (l ++ m) = progressThenStop sid m := by
  induction l with
  | nil => rfl
  | cons a l ih =>
    obtain ⟨t2, pz, v, rfl⟩ := h a (List.mem_cons_self a l)
    have hstep : progressThenStop sid (Ev.netProgress sid t2 pz v :: (l ++ m)) =
        ((sid == sid) && progressThenStop sid (l ++ m)) := rfl
    rw [List.cons_append, hstep, ih (fun e he => h e (List.mem_cons_of_mem _ he))]
    simp

/-- Whole-session characterization: a session run from seed nonce `n`
either fires no start report and leaves the counter at `n`, or fires
exactly the start report with id `n` and leaves the counter at `n + 1`. -/
lemma session_char (cfg : Config) (p : PlayerProps) (o : InitOracle)
    (ts : List Tick) (x : ExitOracle) (n : ℕ) :
    ((runSession cfg p o ts x (initialState n)).1.nextUUID = n ∧
     startSids (runSession cfg p o ts x (initialState n)).2 = []) ∨
    ((runSession cfg p o ts x (initialState n)).1.nextUUID = n + 1 ∧
     startSids (runSession cfg p o ts x (initialState n)).2 = [n]) := by
  have hdec : (runSession cfg p o ts x (initialState n)).2 =
      (initPlayer cfg p o (initialState n)).2 ++
        (runTicks cfg p ts (initPlayer cfg p o (initialState n)).1).2 ++
        (handleExit cfg p x
          (runTicks cfg p ts (initPlayer cfg p o (initialState n)).1).1).2 := rfl
  have hst : (runSession cfg p o ts x (initialState n)).1 =
      (handleExit cfg p x
        (runTicks cfg p ts (initPlayer cfg p o (initialState n)).1).1).1 := rfl
  obtain ⟨hts1, hts2, hts3⟩ :=
    runTicks_shape cfg p ts (initPlayer cfg p o (initialState n)).1
  obtain ⟨hex1, hex2⟩ := handleExit_shape cfg p x
    (runTicks cfg p ts (initPlayer cfg p o (initialState n)).1).1
  have hnuid : (runSession cfg p o ts x (initialState n)).1.nextUUID =
      (initPlayer cfg p o (initialState n)).1.nextUUID := by
    rw [hst, hex1, hts2]
  have hsids2 : startSids
      (runTicks cfg p ts (initPlayer cfg p o (initialState n)).1).2 = [] := by
    rw [startSids, List.filterMap_eq_nil_iff]
    intro e he
    rcases hts3 e he with rfl | ⟨_, t2, pz, v, rfl⟩ <;> rfl
  have hsids3 : startSids
      (handleExit cfg p x
        (runTicks cfg p ts (initPlayer cfg p o (initialState n)).1).1).2 = [] := by
    rcases hex2 with h | ⟨_, h⟩ <;> rw [h] <;> rfl
  have hsplit : startSids (runSession cfg p o ts x (initialState n)).2 =
      startSids (initPlayer cfg p o (initialState n)).2 := by
    rw [hdec, startSids, List.filterMap_append, List.filterMap_append]
    rw [startSids] at hsids2 hsids3
    rw [hsids2, hsids3, List.append_nil, List.append_nil]
    rfl
  rcases initPlayer_char cfg p o n with ⟨_, hn, hsids, _⟩ | ⟨_, hn, hsids, _⟩
  · left
    rw [hnuid, hn, hsplit, hsids]
    exact ⟨rfl, rfl⟩
  · right
    rw [hnuid, hn, hsplit, hsids]
    exact ⟨rfl, rfl⟩

/-! # Claim theorems -/

/-- Claim C1, counterexample: at `seconds = 3/20000000` (one and a half
ticks) the source's `secondsToTicks` floors `1.5` to `1`, while the
claimed conversion `round(seconds * 10_000_000)` gives `2`. -/
theorem c1_round_counterexample :
    secondsToTicks (3 / 20000000) ≠ secondsToTicksSpecRound (3 / 20000000) := by
  have harg : (3 / 20000000 : ℚ) * 10000000 = 3 / 2 := by norm_num
  have h1 : secondsToTicks (3 / 20000000) = 1 := by
    rw [secondsToTicks, harg]
    norm_num [Int.floor_eq_iff]
  have h2 : secondsToTicksSpecRound (3 / 20000000) = 2 := by
    rw [secondsToTicksSpecRound, harg, round_eq]
    norm_num [Int.floor_eq_iff]
  rw [h1, h2]
  decide

/-- Claim C1, amended: for every `seconds ≥ 0`,
`ticksToSeconds (secondsToTicks seconds)` is within one tick's precision
(`1e-7` s) of `seconds`, and `secondsToTicks` computes the deterministic
fixed-point conversion `ticks = floor(seconds * 10_000_000)` (not
`round`). -/
theorem c1_tick_roundtrip (s : ℚ) (_h : 0 ≤ s) :
    |ticksToSeconds (secondsToTicks s) - s| < 1 / 10000000 ∧
    secondsToTicks s = ⌊s * 10000000⌋ := by
  refine ⟨?_, rfl⟩
  have h1 : ((⌊s * 10000000⌋ : ℤ) : ℚ) ≤ s * 10000000 := Int.floor_le _
  have h2 : s * 10000000 < (⌊s * 10000000⌋ : ℤ) + 1 := Int.lt_floor_add_one _
  simp only [ticksToSeconds, secondsToTicks]
  rw [abs_lt]
  constructor <;> linarith

/-- Witness for `c1_tick_roundtrip` at `seconds = 3`. -/
theorem c1_tick_roundtrip_witness :
    (0 : ℚ) ≤ 3 ∧
    (|ticksToSeconds (secondsToTicks 3) - 3| < 1 / 10000000 ∧
      secondsToTicks 3 = ⌊(3 : ℚ) * 10000000⌋) :=
  ⟨by norm_num, c1_tick_roundtrip 3 (by norm_num)⟩

/-- Claim C6, counterexample: with `duration = 100`, a successful
`seekTo 150` stores position `150`, which is not clamped into
`[0, duration]`. -/
theorem c6_seekAbsolute_counterexample :
    (seekTo 150 (Except.ok ()) { initialState 0 with duration := 100 }).1.position = 150 ∧
    ¬ ((seekTo 150 (Except.ok ()) { initialState 0 with duration := 100 }).1.position ≤
        ({ initialState 0 with duration := 100 } : PlayerUIState).duration) := by
  constructor
  · rfl
  · norm_num [seekTo, initialState]

/-- Claim C6, amended: a successful `seekRelative` clamps the resulting
position into `[0, duration]` (for any delta, also past either end), but a
successful `seekTo` (the absolute seek) stores the requested position
unclamped. -/
theorem c6_seek_clamp (st : PlayerUIState) (delta pos : ℚ) (h : 0 ≤ st.duration) :
    (0 ≤ (seekRelative delta (Except.ok ()) st).1.position ∧
      (seekRelative delta (Except.ok ()) st).1.position ≤ st.duration) ∧
    (seekTo pos (Except.ok ()) st).1.position = pos := by
  refine ⟨⟨?_, ?_⟩, rfl⟩
  · exact le_max_left 0 _
  · exact max_le h (min_le_left _ _)

/-- Witness for `c6_seek_clamp` on the initial state. -/
theorem c6_seek_clamp_witness :
    (0 : ℚ) ≤ (initialState 0).duration ∧
    ((0 ≤ (seekRelative 5 (Except.ok ()) (initialState 0)).1.position ∧
       (seekRelative 5 (Except.ok ()) (initialState 0)).1.position ≤
         (initialState 0).duration) ∧
     (seekTo 7 (Except.ok ()) (initialState 0)).1.position = 7) :=
  ⟨le_refl 0, c6_seek_clamp (initialState 0) 5 7 (le_refl 0)⟩

/-- Claim C7, counterexample: with the engine at volume 98 and a session
active, the `volumeUp` dispatch calls `setVolume 100` — the dispatch layer
itself clamps (`Math.min(100, v + 5)`) rather than passing the unclamped
`103` for the engine to clamp. -/
theorem c7_engine_level_clamp_counterexample :
    handleShortcut true ShortcutAction.volumeUp volOracle98 =
      Except.ok [Ev.engineGetVolume, Ev.engineSetVolume 100] ∧
    (100 : ℤ) ≠ 98 + 5 := by
  exact ⟨rfl, by decide⟩

/-- Claim C7, amended: `volumeUp`/`volumeDown` dispatch applies the fixed
step 5, and the clamping of the resulting volume into `[0, 100]` happens
in the dispatch layer itself (`min 100 (v + 5)` / `max 0 (v - 5)`) before
the engine call. -/
theorem c7_volume_step5_clamped_in_dispatch (v : ℤ) (o : ShortcutOracle)
    (h : o.getVolumeRes = Except.ok v) :
    handleShortcut true ShortcutAction.volumeUp o =
      Except.ok [Ev.engineGetVolume, Ev.engineSetVolume (min 100 (v + 5))] ∧
    handleShortcut true ShortcutAction.volumeDown o =
      Except.ok [Ev.engineGetVolume, Ev.engineSetVolume (max 0 (v - 5))] := by
  unfold handleShortcut handleShortcutBody actionName
  rw [h]
  cases o.setVolumeRes <;> simp

/-- Witness for `c7_volume_step5_clamped_in_dispatch` at volume 98. -/
theorem c7_volume_witness :
    volOracle98.getVolumeRes = Except.ok 98 ∧
    (handleShortcut true ShortcutAction.volumeUp volOracle98 =
       Except.ok [Ev.engineGetVolume, Ev.engineSetVolume (min 100 (98 + 5))] ∧
     handleShortcut true ShortcutAction.volumeDown volOracle98 =
       Except.ok [Ev.engineGetVolume, Ev.engineSetVolume (max 0 (98 - 5))]) :=
  ⟨rfl, c7_volume_step5_clamped_in_dispatch 98 volOracle98 rfl⟩

/-- Claim C8: with no active session, dispatching any command other than
`playPause` makes no player-service call; and for every input and every
engine outcome the dispatcher returns normally (the `try/catch` absorbs
every rejection), so no exception reaches the shortcut event source. -/
theorem c8_dispatch_guard_and_no_throw (a : ShortcutAction) (o : ShortcutOracle)
    (h : a ≠ ShortcutAction.playPause) :
    handleShortcut false a o = Except.ok [] ∧
    ∀ (lp : Bool) (a2 : ShortcutAction) (o2 : ShortcutOracle),
      ∃ evs, handleShortcut lp a2 o2 = Except.ok evs := by
  constructor
  · simp [handleShortcut, h]
  · intro lp a2 o2
    unfold handleShortcut
    split
    · exact ⟨[], rfl⟩
    · rcases hb : handleShortcutBody a2 o2 with ⟨evs, r⟩
      cases r <;> exact ⟨evs, rfl⟩

/-- Witness for `c8_dispatch_guard_and_no_throw`: `volumeDown` with no
active session (Scenario E). -/
theorem c8_dispatch_witness :
    ShortcutAction.volumeDown ≠ ShortcutAction.playPause ∧
    (handleShortcut false ShortcutAction.volumeDown shortcutOracleOk = Except.ok [] ∧
     ∀ (lp : Bool) (a2 : ShortcutAction) (o2 : ShortcutOracle),
       ∃ evs, handleShortcut lp a2 o2 = Except.ok evs) :=
  ⟨by decide, c8_dispatch_guard_and_no_throw ShortcutAction.volumeDown shortcutOracleOk
      (by decide)⟩

/-- Claim C9: while the controller is playing, a poll tick whose `getState`
rejects leaves the component state exactly unchanged (position, paused
flag, duration, everything), and the loop continues: the remaining ticks
run exactly as they would have from the same state. -/
theorem c9_poll_failure_swallowed (cfg : Config) (p : PlayerProps)
    (st : PlayerUIState) (e : String) (ts : List Tick)
    (h : st.isPlaying = true) :
    pollTick (Except.error e) st = (st, [Ev.engineGetState]) ∧
    runTicks cfg p (Tick.poll (Except.error e) :: ts) st =
      ((runTicks cfg p ts st).1, Ev.engineGetState :: (runTicks cfg p ts st).2) := by
  have h1 : pollTick (Except.error e) st = (st, [Ev.engineGetState]) := by
    simp [pollTick, pollBody, h]
  refine ⟨h1, ?_⟩
  simp [runTicks, runTick, h1]

/-- Witness for `c9_poll_failure_swallowed` on a playing state. -/
theorem c9_poll_failure_witness :
    ({ initialState 0 with isPlaying := true } : PlayerUIState).isPlaying = true ∧
    (pollTick (Except.error "boom") { initialState 0 with isPlaying := true } =
       ({ initialState 0 with isPlaying := true }, [Ev.engineGetState]) ∧
     runTicks ⟨"", none, none⟩ ⟨none, none, none, none⟩
         (Tick.poll (Except.error "boom") :: []) { initialState 0 with isPlaying := true } =
       ((runTicks ⟨"", none, none⟩ ⟨none, none, none, none⟩ []
           { initialState 0 with isPlaying := true }).1,
        Ev.engineGetState ::
          (runTicks ⟨"", none, none⟩ ⟨none, none, none, none⟩ []
            { initialState 0 with isPlaying := true }).2)) :=
  ⟨rfl, c9_poll_failure_swallowed ⟨"", none, none⟩ ⟨none, none, none, none⟩
      { initialState 0 with isPlaying := true } "boom" [] rfl⟩

/-- Claim C10, counterexample: a `CommandResult` with `success = true` and
the non-null but empty error string `""` resolves (JS `result.error` is
falsy), while the claim says any non-null error rejects. -/
theorem c10_empty_error_counterexample :
    unwrapResult (⟨true, some 42, some ""⟩ : CommandResult ℕ) = Except.ok (some 42) ∧
    (⟨true, some 42, some ""⟩ : CommandResult ℕ).error ≠ none := by
  exact ⟨rfl, by simp⟩

/-- Claim C10, amended: `unwrapResult` (and `unwrapVoid`) rejects exactly
when the command result has `success = false` or a non-null, non-empty
error string; the rejection message is the result's error text, or
`"Unknown error"` when that text is absent or empty; otherwise it
resolves, returning the result's data. -/
theorem c10_unwrap_spec (α : Type) (r : CommandResult α) (rv : CommandResult Unit) :
    ((∃ m, unwrapResult r = Except.error m) ↔
        r.success = false ∨ ∃ s, r.error = some s ∧ s ≠ "") ∧
    (∀ m, unwrapResult r = Except.error m → m = jsOrStr r.error "Unknown error") ∧
    (∀ d, unwrapResult r = Except.ok d → d = r.data) ∧
    ((∃ m, unwrapVoid rv = Except.error m) ↔
        rv.success = false ∨ ∃ s, rv.error = some s ∧ s ≠ "") := by
  have key : ∀ (b : Bool) (e : Option String),
      (!b || jsStrTruthy e) = true ↔ (b = false ∨ ∃ s, e = some s ∧ s ≠ "") := by
    intro b e
    cases b <;> cases e <;>
      simp [jsStrTruthy, String.isEmpty_iff, Bool.eq_false_iff]
  refine ⟨?_, ?_, ?_, ?_⟩
  · by_cases hg : (!r.success || jsStrTruthy r.error) = true
    · have hr : unwrapResult r = Except.error (jsOrStr r.error "Unknown error") := by
        unfold unwrapResult
        rw [if_pos hg]
      exact ⟨fun _ => (key _ _).mp hg, fun _ => ⟨_, hr⟩⟩
    · have hr : unwrapResult r = Except.ok r.data := by
        unfold unwrapResult
        rw [if_neg hg]
      constructor
      · intro ⟨m, hm⟩
        rw [hr] at hm
        exact absurd hm (by simp)
      · intro hd
        exact absurd ((key _ _).mpr hd) hg
  · intro m hm
    by_cases hg : (!r.success || jsStrTruthy r.error) = true
    · have hr : unwrapResult r = Except.error (jsOrStr r.error "Unknown error") := by
        unfold unwrapResult
        rw [if_pos hg]
      rw [hr] at hm
      injection hm with h2
      exact h2.symm
    · have hr : unwrapResult r = Except.ok r.data := by
        unfold unwrapResult
        rw [if_neg hg]
      rw [hr] at hm
      exact absurd hm (by simp)
  · intro d hd
    by_cases hg : (!r.success || jsStrTruthy r.error) = true
    · have hr : unwrapResult r = Except.error (jsOrStr r.error "Unknown error") := by
        unfold unwrapResult
        rw [if_pos hg]
      rw [hr] at hd
      exact absurd hd (by simp)
    · have hr : unwrapResult r = Except.ok r.data := by
        unfold unwrapResult
        rw [if_neg hg]
      rw [hr] at hd
      injection hd with h2
      exact h2.symm
  · by_cases hg : (!rv.success || jsStrTruthy rv.error) = true
    · have hr : unwrapVoid rv = Except.error (jsOrStr rv.error "Unknown error") := by
        unfold unwrapVoid
        rw [if_pos hg]
      exact ⟨fun _ => (key _ _).mp hg, fun _ => ⟨_, hr⟩⟩
    · have hr : unwrapVoid rv = Except.ok () := by
        unfold unwrapVoid
        rw [if_neg hg]
      constructor
      · intro ⟨m, hm⟩
        rw [hr] at hm
        exact absurd hm (by simp)
      · intro hd
        exact absurd ((key _ _).mpr hd) hg

/-- Witness for `c10_unwrap_spec`: a failed command with no error text
rejects with `"Unknown error"`. -/
theorem c10_unwrap_witness :
    ((⟨false, none, none⟩ : CommandResult ℕ).success = false ∨
      ∃ s, (⟨false, none, none⟩ : CommandResult ℕ).error = some s ∧ s ≠ "") ∧
    ∃ m, unwrapResult (⟨false, none, none⟩ : CommandResult ℕ) = Except.error m :=
  ⟨Or.inl rfl,
   (c10_unwrap_spec ℕ ⟨false, none, none⟩ ⟨false, none, none⟩).1.mpr (Or.inl rfl)⟩

/-- Claim C4: every reporter call (start, progress, stopped) catches its own
network rejection and still resolves, so an entire session run — final
component state and the full call trace, hence every local transition and
every poll-driven update — is identical to the run in which every report
fetch succeeds. -/
theorem c4_report_failure_isolation (cfg : Config) (p : PlayerProps) (o : InitOracle)
    (ts : List Tick) (x : ExitOracle) (st : PlayerUIState) :
    runSession cfg p o ts x st =
      runSession cfg p { o with startFetchRes := Except.ok () }
        (ts.map Tick.stripFetch) { x with stopFetchRes := Except.ok () } st := by
  simp only [runSession, ← initPlayer_fetch, ← runTicks_fetch, ← handleExit_fetch]

/-- Claim C5: if the engine init call or the engine load call rejects
with message `e`, the controller lands in the error state carrying `e`,
`isPlaying` stays false and loading ends; no network call (in particular
no start report) was made; every poll or progress tick from that state is
a no-op (neither loop starts); and the rendered error screen offers
exactly one action, Go Back. -/
theorem c5_load_failure (cfg : Config) (p : PlayerProps) (o : InitOracle)
    (n : ℕ) (e : String)
    (hItem : jsStrTruthy (effectiveItemId p) = true)
    (hUser : jsStrTruthy cfg.userId = true)
    (hFail : o.initRes = Except.error e ∨
      (o.initRes = Except.ok () ∧ (∃ d, o.getItemRes = Except.ok d) ∧
        o.loadRes = Except.error e))
    (he : e ≠ "") :
    (initPlayer cfg p o (initialState n)).1.error = some e ∧
    (initPlayer cfg p o (initialState n)).1.isPlaying = false ∧
    (initPlayer cfg p o (initialState n)).1.isLoading = false ∧
    (initPlayer cfg p o (initialState n)).2.filter Ev.isNet = [] ∧
    (∀ ts, runTicks cfg p ts (initPlayer cfg p o (initialState n)).1 =
      ((initPlayer cfg p o (initialState n)).1, [])) ∧
    screenActions (render (initPlayer cfg p o (initialState n)).1) =
      [UIAction.goBack] := by
  have he2 : e.isEmpty = false := by
    rw [Bool.eq_false_iff]
    intro hh
    exact he ((String.isEmpty_iff e).mp hh)
  have key : (initPlayer cfg p o (initialState n)).1.error = some e ∧
      (initPlayer cfg p o (initialState n)).1.isPlaying = false ∧
      (initPlayer cfg p o (initialState n)).1.isLoading = false ∧
      (initPlayer cfg p o (initialState n)).2.filter Ev.isNet = [] := by
    rcases hFail with hInit | ⟨hInit, ⟨d, hGet⟩, hLoad⟩
    · have hred : initPlayer cfg p o (initialState n) =
          (initCatch e { initialState n with isLoading := true, error := none },
           [Ev.engineInit]) := by
        simp only [initPlayer, hItem, hInit, Bool.not_true,
          Bool.false_eq_true, if_false]
      rw [hred]
      refine ⟨?_, ?_, ?_, ?_⟩ <;>
        simp [initCatch, initErrMsg, he2, initialState, Ev.isNet]
    · have hred : initPlayer cfg p o (initialState n) =
          (initCatch e (applyTracks d
            { initialState n with isLoading := true, error := none }),
           [Ev.engineInit,
            Ev.apiGetItem (cfg.userId.getD "") ((effectiveItemId p).getD ""),
            Ev.engineLoad (streamUrl cfg p ((effectiveItemId p).getD ""))
              (if jsIntOptTruthy p.startPositionTicks then
                 ticksToSeconds (p.startPositionTicks.getD 0) else 0)
              (jsStrTruthy cfg.accessToken)]) := by
        simp only [initPlayer, hItem, hInit, hUser, hGet, hLoad, Bool.not_true,
          Bool.false_eq_true, if_false]
      rw [hred]
      refine ⟨?_, ?_, ?_, ?_⟩ <;>
        simp [initCatch, initErrMsg, he2, initialState, Ev.isNet]
  obtain ⟨k1, k2, k3, k4⟩ := key
  refine ⟨k1, k2, k3, k4, ?_, ?_⟩
  · intro ts
    exact runTicks_not_playing cfg p ts _ k2
  · simp [render, screenActions, k1, jsStrTruthy, he2]

/-- Witness for `c5_load_failure`, exercising both failure branches:
Scenario D (load rejecting with `"unsupported codec"`) and an engine init
call rejecting with `"mpv not found"`, on the sample inputs. -/
theorem c5_load_failure_witness :
    (jsStrTruthy (effectiveItemId sampleProps) = true ∧
     jsStrTruthy sampleConfig.userId = true ∧
     (failLoadOracle.initRes = Except.ok () ∧
       (∃ d, failLoadOracle.getItemRes = Except.ok d) ∧
       failLoadOracle.loadRes = Except.error "unsupported codec") ∧
     failInitOracle.initRes = Except.error "mpv not found" ∧
     "unsupported codec" ≠ "" ∧ "mpv not found" ≠ "") ∧
    ((initPlayer sampleConfig sampleProps failLoadOracle (initialState 0)).1.error =
        some "unsupported codec" ∧
     (initPlayer sampleConfig sampleProps failLoadOracle (initialState 0)).1.isPlaying = false ∧
     (initPlayer sampleConfig sampleProps failLoadOracle (initialState 0)).1.isLoading = false ∧
     (initPlayer sampleConfig sampleProps failLoadOracle (initialState 0)).2.filter Ev.isNet = [] ∧
     (∀ ts, runTicks sampleConfig sampleProps ts
         (initPlayer sampleConfig sampleProps failLoadOracle (initialState 0)).1 =
       ((initPlayer sampleConfig sampleProps failLoadOracle (initialState 0)).1, [])) ∧
     screenActions (render
         (initPlayer sampleConfig sampleProps failLoadOracle (initialState 0)).1) =
       [UIAction.goBack]) ∧
    ((initPlayer sampleConfig sampleProps failInitOracle (initialState 0)).1.error =
        some "mpv not found" ∧
     (initPlayer sampleConfig sampleProps failInitOracle (initialState 0)).1.isPlaying = false ∧
     (initPlayer sampleConfig sampleProps failInitOracle (initialState 0)).1.isLoading = false ∧
     (initPlayer sampleConfig sampleProps failInitOracle (initialState 0)).2.filter Ev.isNet = [] ∧
     (∀ ts, runTicks sampleConfig sampleProps ts
         (initPlayer sampleConfig sampleProps failInitOracle (initialState 0)).1 =
       ((initPlayer sampleConfig sampleProps failInitOracle (initialState 0)).1, [])) ∧
     screenActions (render
         (initPlayer sampleConfig sampleProps failInitOracle (initialState 0)).1) =
       [UIAction.goBack]) :=
  ⟨⟨rfl, rfl, ⟨rfl, ⟨sampleItem, rfl⟩, rfl⟩, rfl, by decide, by decide⟩,
   c5_load_failure sampleConfig sampleProps failLoadOracle 0 "unsupported codec"
     rfl rfl (Or.inr ⟨rfl, ⟨sampleItem, rfl⟩, rfl⟩) (by decide),
   c5_load_failure sampleConfig sampleProps failInitOracle 0 "mpv not found"
     rfl rfl (Or.inl rfl) (by decide)⟩

/-- Claim C2: on a successful init/resolve/load sequence, the whole session
trace contains exactly one start report; it sits at position 4, after the
engine load call at position 2 confirmed success (never before), and its
payload carries `PositionTicks` equal to the requested start position in
ticks, `IsPaused = false`, and the initial volume 100. -/
theorem c2_start_report (cfg : Config) (p : PlayerProps) (o : InitOracle)
    (ts : List Tick) (x : ExitOracle) (n : ℕ) (d : ItemData) (dur : ℚ)
    (hItem : jsStrTruthy (effectiveItemId p) = true)
    (hUrl : cfg.serverUrl.isEmpty = false)
    (hTok : jsStrTruthy cfg.accessToken = true)
    (hUser : jsStrTruthy cfg.userId = true)
    (hInit : o.initRes = Except.ok ())
    (hGet : o.getItemRes = Except.ok d)
    (hLoad : o.loadRes = Except.ok ())
    (hDur : o.durationRes = Except.ok dur) :
    ((runSession cfg p o ts x (initialState n)).2.countP Ev.isStart = 1) ∧
    ((runSession cfg p o ts x (initialState n)).2)[4]? =
      some (Ev.netStart n (p.startPositionTicks.getD 0) false 100) ∧
    (∃ u s b, ((runSession cfg p o ts x (initialState n)).2)[2]? =
      some (Ev.engineLoad u s b)) := by
  obtain ⟨htr, hsid, hnuid, hplay⟩ :=
    initPlayer_success_trace cfg p o n d dur hItem hUrl hTok hUser hInit hGet hLoad hDur
  have hdecomp : (runSession cfg p o ts x (initialState n)).2 =
      (initPlayer cfg p o (initialState n)).2 ++
        (runTicks cfg p ts (initPlayer cfg p o (initialState n)).1).2 ++
        (handleExit cfg p x
          (runTicks cfg p ts (initPlayer cfg p o (initialState n)).1).1).2 := rfl
  have hlen : (initPlayer cfg p o (initialState n)).2.length = 5 := by
    rw [htr]
    rfl
  rw [hdecomp]
  refine ⟨?_, ?_, ?_⟩
  · rw [List.countP_append, List.countP_append, runTicks_no_start,
      handleExit_no_start, htr]
    rfl
  · rw [List.getElem?_append_left (by rw [List.length_append, hlen]; omega),
      List.getElem?_append_left (by rw [hlen]; omega), htr]
    rfl
  · have hload2 : ((initPlayer cfg p o (initialState n)).2 ++
        (runTicks cfg p ts (initPlayer cfg p o (initialState n)).1).2 ++
        (handleExit cfg p x
          (runTicks cfg p ts (initPlayer cfg p o (initialState n)).1).1).2)[2]? =
        some (Ev.engineLoad (streamUrl cfg p ((effectiveItemId p).getD ""))
          (if jsIntOptTruthy p.startPositionTicks then
             ticksToSeconds (p.startPositionTicks.getD 0) else 0)
          (jsStrTruthy cfg.accessToken)) := by
      rw [List.getElem?_append_left (by rw [List.length_append, hlen]; omega),
        List.getElem?_append_left (by rw [hlen]; omega), htr]
      rfl
    exact ⟨_, _, _, hload2⟩

/-- Witness for `c2_start_report`: Scenario A on the sample inputs
(start position 600000000 ticks = 60 s). -/
theorem c2_start_report_witness :
    (jsStrTruthy (effectiveItemId sampleProps) = true ∧
     sampleConfig.serverUrl.isEmpty = false ∧
     jsStrTruthy sampleConfig.accessToken = true ∧
     jsStrTruthy sampleConfig.userId = true ∧
     sampleInitOracle.initRes = Except.ok () ∧
     sampleInitOracle.getItemRes = Except.ok sampleItem ∧
     sampleInitOracle.loadRes = Except.ok () ∧
     sampleInitOracle.durationRes = Except.ok 100) ∧
    (((runSession sampleConfig sampleProps sampleInitOracle [] sampleExit
        (initialState 0)).2.countP Ev.isStart = 1) ∧
     ((runSession sampleConfig sampleProps sampleInitOracle [] sampleExit
        (initialState 0)).2)[4]? =
       some (Ev.netStart 0 (sampleProps.startPositionTicks.getD 0) false 100) ∧
     (∃ u s b, ((runSession sampleConfig sampleProps sampleInitOracle [] sampleExit
        (initialState 0)).2)[2]? = some (Ev.engineLoad u s b))) :=
  ⟨⟨rfl, rfl, rfl, rfl, rfl, rfl, rfl, rfl⟩,
   c2_start_report sampleConfig sampleProps sampleInitOracle [] sampleExit 0
     sampleItem 100 rfl rfl rfl rfl rfl rfl rfl rfl⟩

/-- Claim C3: within a single session run the network reports always form
`start, progress*, stop?` sharing one `playSessionId` — never a progress
or stopped report before the start report has set the id, never more than
one start or stopped report; the stopped report (when sent) precedes the
`playerService.stop()` and `playerService.destroy()` calls of the exit
path; and the id is never reused: a start report of any subsequent
session, seeded with the nonce counter this run left behind, carries a
different id. -/
theorem c3_report_protocol (cfg : Config) (p : PlayerProps) (o : InitOracle)
    (ts : List Tick) (x : ExitOracle) (n : ℕ) :
    reportsWellFormed
      ((runSession cfg p o ts x (initialState n)).2.filter Ev.isNet) = true ∧
    (∃ pre mid,
      (runSession cfg p o ts x (initialState n)).2 =
        pre ++ mid ++ [Ev.engineStop, Ev.engineDestroy] ∧
      (mid = [] ∨ ∃ s t2, mid = [Ev.netStopped s t2]) ∧
      ∀ e ∈ pre, e ≠ Ev.engineStop ∧ e ≠ Ev.engineDestroy ∧
        ∀ s t2, e ≠ Ev.netStopped s t2) ∧
    (∀ (cfg2 : Config) (p2 : PlayerProps) (o2 : InitOracle) (ts2 : List Tick)
        (x2 : ExitOracle) (s1 s2 : ℕ),
      s1 ∈ startSids (runSession cfg p o ts x (initialState n)).2 →
      s2 ∈ startSids (runSession cfg2 p2 o2 ts2 x2
        (initialState (runSession cfg p o ts x (initialState n)).1.nextUUID)).2 →
      s1 ≠ s2) := by
  have hdec : (runSession cfg p o ts x (initialState n)).2 =
      (initPlayer cfg p o (initialState n)).2 ++
        (runTicks cfg p ts (initPlayer cfg p o (initialState n)).1).2 ++
        (handleExit cfg p x
          (runTicks cfg p ts (initPlayer cfg p o (initialState n)).1).1).2 := rfl
  obtain ⟨hts1, hts2, hts3⟩ :=
    runTicks_shape cfg p ts (initPlayer cfg p o (initialState n)).1
  obtain ⟨hex1, hex2⟩ := handleExit_shape cfg p x
    (runTicks cfg p ts (initPlayer cfg p o (initialState n)).1).1
  refine ⟨?_, ?_, ?_⟩
  · -- (a) the filtered report sequence is well-formed
    rw [hdec, List.filter_append, List.filter_append]
    rcases initPlayer_char cfg p o n with ⟨hsid, _, _, hnf⟩ | ⟨hsid, _, _, hnf⟩
    · have h2 : (runTicks cfg p ts
          (initPlayer cfg p o (initialState n)).1).2.filter Ev.isNet = [] := by
        rw [List.filter_eq_nil_iff]
        intro e he
        rcases hts3 e he with rfl | ⟨hsome, _⟩
        · simp [Ev.isNet]
        · rw [hsid] at hsome
          simp at hsome
      have h3 : (handleExit cfg p x
          (runTicks cfg p ts (initPlayer cfg p o (initialState n)).1).1).2.filter
            Ev.isNet = [] := by
        rcases hex2 with h | ⟨hsome, h⟩
        · rw [h]
          rfl
        · rw [hts1, hsid] at hsome
          simp at hsome
      rw [hnf, h2, h3]
      rfl
    · have h2 : ∀ e ∈ (runTicks cfg p ts
          (initPlayer cfg p o (initialState n)).1).2.filter Ev.isNet,
          ∃ t2 pz v, e = Ev.netProgress n t2 pz v := by
        intro e he
        have hm := List.mem_filter.mp he
        rcases hts3 e hm.1 with rfl | ⟨_, t2, pz, v, rfl⟩
        · exact absurd hm.2 (by simp [Ev.isNet])
        · refine ⟨t2, pz, v, ?_⟩
          rw [hsid]
          rfl
      rcases hex2 with h3 | ⟨hsome3, h3⟩
      · rw [hnf, h3]
        have hf3 : ([Ev.engineStop, Ev.engineDestroy].filter Ev.isNet) = [] := rfl
        rw [hf3, List.append_nil, List.singleton_append]
        have heq : reportsWellFormed
            (Ev.netStart n (p.startPositionTicks.getD 0) false 100 ::
              (runTicks cfg p ts
                (initPlayer cfg p o (initialState n)).1).2.filter Ev.isNet) =
            progressThenStop n ((runTicks cfg p ts
              (initPlayer cfg p o (initialState n)).1).2.filter Ev.isNet) := rfl
        rw [heq, ← List.append_nil ((runTicks cfg p ts
          (initPlayer cfg p o (initialState n)).1).2.filter Ev.isNet),
          progressThenStop_all_progress n _ [] h2]
        rfl
      · simp only [hts1, hsid, Option.getD_some] at h3
        rw [hnf, h3]
        have hf3 : ([Ev.netStopped n (secondsToTicks (runTicks cfg p ts
            (initPlayer cfg p o (initialState n)).1).1.position),
            Ev.engineStop, Ev.engineDestroy].filter Ev.isNet) =
            [Ev.netStopped n (secondsToTicks (runTicks cfg p ts
              (initPlayer cfg p o (initialState n)).1).1.position)] := rfl
        rw [hf3, List.singleton_append, List.cons_append]
        have heq : reportsWellFormed
            (Ev.netStart n (p.startPositionTicks.getD 0) false 100 ::
              ((runTicks cfg p ts
                (initPlayer cfg p o (initialState n)).1).2.filter Ev.isNet ++
               [Ev.netStopped n (secondsToTicks (runTicks cfg p ts
                 (initPlayer cfg p o (initialState n)).1).1.position)])) =
            progressThenStop n ((runTicks cfg p ts
              (initPlayer cfg p o (initialState n)).1).2.filter Ev.isNet ++
              [Ev.netStopped n (secondsToTicks (runTicks cfg p ts
                (initPlayer cfg p o (initialState n)).1).1.position)]) := rfl
        rw [heq, progressThenStop_all_progress n _ _ h2]
        simp [progressThenStop]
  · -- (b) the stopped report precedes stop() and destroy()
    rcases hex2 with h3 | ⟨hsome3, h3⟩
    · refine ⟨(initPlayer cfg p o (initialState n)).2 ++
        (runTicks cfg p ts (initPlayer cfg p o (initialState n)).1).2, [],
        ?_, Or.inl rfl, ?_⟩
      · rw [hdec, h3]
        simp
      · intro e he
        rcases List.mem_append.mp he with h1 | h2
        · exact initPlayer_no_teardown cfg p o _ e h1
        · rcases hts3 e h2 with rfl | ⟨_, t2, pz, v, rfl⟩ <;> simp
    · refine ⟨(initPlayer cfg p o (initialState n)).2 ++
        (runTicks cfg p ts (initPlayer cfg p o (initialState n)).1).2,
        [Ev.netStopped ((runTicks cfg p ts
          (initPlayer cfg p o (initialState n)).1).1.playSessionId.getD 0)
          (secondsToTicks (runTicks cfg p ts
            (initPlayer cfg p o (initialState n)).1).1.position)],
        ?_, Or.inr ⟨_, _, rfl⟩, ?_⟩
      · rw [hdec, h3]
        simp
      · intro e he
        rcases List.mem_append.mp he with h1 | h2
        · exact initPlayer_no_teardown cfg p o _ e h1
        · rcases hts3 e h2 with rfl | ⟨_, t2, pz, v, rfl⟩ <;> simp
  · -- (c) session ids are never reused across sessions
    intro cfg2 p2 o2 ts2 x2 s1 s2 h1 h2
    rcases session_char cfg p o ts x n with ⟨hn, hsids⟩ | ⟨hn, hsids⟩
    · rw [hsids] at h1
      exact absurd h1 (List.not_mem_nil s1)
    · rw [hsids] at h1
      have hs1 : s1 = n := List.mem_singleton.mp h1
      rcases session_char cfg2 p2 o2 ts2 x2
          (runSession cfg p o ts x (initialState n)).1.nextUUID with
        ⟨_, hsids2⟩ | ⟨_, hsids2⟩
      · rw [hsids2] at h2
        exact absurd h2 (List.not_mem_nil s2)
      · rw [hsids2] at h2
        have hs2 : s2 = (runSession cfg p o ts x (initialState n)).1.nextUUID :=
          List.mem_singleton.mp h2
        rw [hs1, hs2, hn]
        omega

/-- Witness for `c3_report_protocol`: two back-to-back sample sessions
draw the distinct playSessionIds 0 and 1. -/
theorem c3_report_protocol_witness :
    (0 ∈ startSids (runSession sampleConfig sampleProps sampleInitOracle []
      sampleExit (initialState 0)).2) ∧
    (1 ∈ startSids (runSession sampleConfig sampleProps sampleInitOracle []
      sampleExit (initialState (runSession sampleConfig sampleProps
        sampleInitOracle [] sampleExit (initialState 0)).1.nextUUID)).2) ∧
    (0 : ℕ) ≠ 1 :=
  ⟨by decide, by decide,
   (c3_report_protocol sampleConfig sampleProps sampleInitOracle [] sampleExit 0).2.2
     sampleConfig sampleProps sampleInitOracle [] sampleExit 0 1
     (by decide) (by decide)⟩

end HubRemote


